import Mathlib

/-!
Verification of the CAPSENSE liquid-level-sensing firmware
(`main.c`, `interface.c`, `interface.h`).

The development shallowly embeds the two stateful parts of the firmware:

* the per-cycle signal-processing pipeline of `main` (raw counts →
  baseline-subtracted diff → scaled processed value → weighted submerged
  count → fixed-point level height and percent), together with the
  calibration save of `store_calibration`;
* the UART command protocol and telemetry driver of `interface.c`
  (`receive_uart_cmd`, `display_cur_liquid_level`,
  `display_next_level_val`, `display_decimal_fixed_val`).

Machine integers are modelled as `Int`/`Nat` with explicit two's-complement
wrapping (`wrap32`) at the points where the C program computes in 32 bits.
Serial output is abstracted to a list of emission tags: the claims under
study concern which kinds of lines are emitted, not their glyphs.
-/

/-! ### Constants from `interface.h` and `main.c` -/

def NUMSENSORS : Nat := 12

def LEVELMM_MAX : Nat := 153

def NUM_SAMPLES : Nat := 20

def UART_NONE : Nat := 0

def UART_BASIC : Nat := 1

def UART_CSVINIT : Nat := 2

def UART_CSV : Nat := 3

/-- `SENSORHEIGHT = (LEVELMM_MAX * 256) / (NUMSENSORS - 1)` (main.c line 65),
fixed precision 24.8. Evaluates to 3560. -/
def sensorHeight : Int := (LEVELMM_MAX * 256) / (NUMSENSORS - 1)

/-- Per-slot normalization factors `sensorScale` (main.c line 111),
8.8 fixed point: `{0x01D0, 0x0100 × 10, 0x01C0}`. -/
def sensorScale (i : Nat) : Int :=
  ([464, 256, 256, 256, 256, 256, 256, 256, 256, 256, 256, 448].getD i 0 : Int)

/-- Per-slot submersion thresholds `sensorLimits` (main.c line 115). -/
def sensorLimits (i : Nat) : Int :=
  ([900, 550, 480, 480, 500, 450, 440, 450, 450, 400, 400, 550].getD i 0 : Int)

/-! ### 32-bit arithmetic helpers -/

/-- Two's-complement wrap of an integer into the `int32_t` range. -/
def wrap32 (x : Int) : Int := (x + 2 ^ 31) % 2 ^ 32 - 2 ^ 31

/-- Arithmetic shift right (C `>>` on a signed value): floor-division
by a power of two. -/
def sar (x : Int) (n : Nat) : Int := Int.fdiv x (2 ^ n)

/-! ### Pipeline state (`main.c` globals) -/

/-- The global state of `main.c` that the per-cycle pipeline reads and
writes.  Arrays are modelled as functions from the (Nat) slot index;
the pipeline only ever touches indices `0 ≤ i < NUMSENSORS`. -/
@[ext]
structure MainState where
  sensorRaw : Nat → Int
  sensorDiff : Nat → Int
  sensorEmptyOffset : Nat → Int
  sensorProcessed : Nat → Int
  sensorActiveCount : Nat
  levelMm : Int
  levelPercent : Int
  cal_flag : Bool

/-- `sensorDiff[i] -= sensorEmptyOffset[i]; if (sensorDiff[i] < 0)
sensorDiff[i] = 0;` (main.c lines 249-253), with `sensorDiff[i]` holding
the raw count at that point (line 227). -/
def computeDiff (raw base : Int) : Int :=
  let d := wrap32 (raw - base)
  if d < 0 then 0 else d

/-- `sensorProcessed[i] = (sensorDiff[i] * sensorScale[i]) >> 8`
(main.c line 254), in 32-bit arithmetic. -/
def computeProcessed (diff scale : Int) : Int :=
  sar (wrap32 (diff * scale)) 8

/-- One iteration of the active-count accumulation (main.c lines 256-268):
if `processed[i] > limits[i]/2`, add 1 for an end slot and 2 for an
interior slot. -/
def countStep (p : Nat → Int) (i : Nat) (acc : Nat) : Nat :=
  if sensorLimits i / 2 < p i then
    (if i = 0 ∨ i = NUMSENSORS - 1 then acc + 1 else acc + 2)
  else acc

/-- The full active-count loop, slots 0 through 11 in program order. -/
def computeActiveCount (p : Nat → Int) : Nat :=
  countStep p 11 (countStep p 10 (countStep p 9 (countStep p 8
    (countStep p 7 (countStep p 6 (countStep p 5 (countStep p 4
      (countStep p 3 (countStep p 2 (countStep p 1 (countStep p 0 0)))))))))))

/-- Spec-side weight of a slot: 1 for the two end slots, 2 for interior
slots. -/
def slotWeight (i : Nat) : Nat := if i = 0 ∨ i = NUMSENSORS - 1 then 1 else 2

/-- `levelMm = sensorActiveCount * (sensorHeight >> 1)` followed by the
snap-to-full correction (main.c lines 274-281). -/
def computeLevelMm (ac : Nat) : Int :=
  let lvl : Int := (ac : Int) * sar sensorHeight 1
  if ((LEVELMM_MAX : Int) * 2 ^ 8) - sar sensorHeight 2 < lvl then
    (LEVELMM_MAX : Int) * 2 ^ 8
  else lvl

/-- `levelPercent = (levelMm * 100) / LEVELMM_MAX` (main.c line 286). -/
def computeLevelPercent (lvl : Int) : Int := lvl * 100 / (LEVELMM_MAX : Int)

/-- `store_calibration` (interface.c lines 176-197): copy the current
`sensorDiff` values into `sensorEmptyOffset` for every slot.  The
emulated-EEPROM write is the opaque byte store; its success path changes
no further pipeline state. -/
def store_calibration (s : MainState) : MainState :=
  { s with sensorEmptyOffset :=
      fun i => if i < NUMSENSORS then s.sensorDiff i else s.sensorEmptyOffset i }

/-- One scan-complete iteration of the `for (;;)` loop of `main`
(main.c lines 210-287): latch raw counts into `sensorRaw`/`sensorDiff`,
consume a pending calibration request, then recompute diff, processed,
active count, level height and level percent. -/
def cycleStep (s : MainState) (raw : Nat → Int) : MainState :=
  let s1 : MainState :=
    { s with
      sensorRaw := fun i => if i < NUMSENSORS then raw i else s.sensorRaw i
      sensorDiff := fun i => if i < NUMSENSORS then raw i else s.sensorDiff i }
  let s2 : MainState :=
    if s1.cal_flag then store_calibration { s1 with cal_flag := false } else s1
  let diff : Nat → Int := fun i =>
    if i < NUMSENSORS then computeDiff (s2.sensorDiff i) (s2.sensorEmptyOffset i)
    else s2.sensorDiff i
  let proc : Nat → Int := fun i =>
    if i < NUMSENSORS then computeProcessed (diff i) (sensorScale i)
    else s2.sensorProcessed i
  let ac := computeActiveCount proc
  let lvl := computeLevelMm ac
  { s2 with
    sensorDiff := diff
    sensorProcessed := proc
    sensorActiveCount := ac
    levelMm := lvl
    levelPercent := computeLevelPercent lvl
    cal_flag := s2.cal_flag }

/-- A quiescent initial state: all arrays zero, no pending flags. -/
def mainInitState : MainState :=
  { sensorRaw := fun _ => 0
    sensorDiff := fun _ => 0
    sensorEmptyOffset := fun _ => 0
    sensorProcessed := fun _ => 0
    sensorActiveCount := 0
    levelMm := 0
    levelPercent := 0
    cal_flag := false }

/-! ### Fixed-point rendering (`display_decimal_fixed_val`) -/

/-- The value whose decimal digits `display_decimal_fixed_val` emits after
the decimal point (interface.c line 431):
`((number & (0xFFFFFFFF >> (31 - fixed_shift))) * dec_digits) >> fixed_shift`
computed in C `unsigned` (32-bit) arithmetic, after clamping
`fixed_shift` to at most 31 and `num_decimal` to at most 9
(lines 410-417). -/
def fracPart (number : Int) (fixed_shift : Nat) (num_decimal : Nat) : Nat :=
  let fs := if 31 < fixed_shift then 31 else fixed_shift
  let nd := if 9 < num_decimal then 9 else num_decimal
  let dec_digits := 10 ^ nd
  ((((number.emod (2 ^ 32)).toNat &&& (0xFFFFFFFF >>> (31 - fs))) * dec_digits)
      % 2 ^ 32) >>> fs

/-- Modelled from the spec: the fractional-digit value the specification
prescribes for a 24.8 input — mask the low 8 bits, multiply by `10 ^ n`,
shift right by 8, with the requested digit count clamped to `[0, 9]`.
Stated only for comparison against `fracPart` (the code). -/
def specFracDigits (v : Int) (n : Nat) : Nat :=
  let nd := if 9 < n then 9 else n
  (((v.emod (2 ^ 32)).toNat &&& 0xFF) * 10 ^ nd) >>> 8

/-! ### UART protocol state (`interface.c` globals and statics) -/

/-- Kinds of lines the firmware writes to the serial port.  The claims
under study count emissions by kind, so payload text is abstracted away. -/
inductive Emit where
  | basicLine
  | csvHeader
  | csvRow
  | sampleHeader
  | sampleRow
  | resetNotice
  | errorNotice
deriving DecidableEq

/-- Protocol-side state: `uartTxMode`, the static line buffer and index of
`receive_uart_cmd`, the three one-shot flags, the static `sampleIndex` of
`display_next_level_val`, and a `halted` marker for `handle_error`'s
infinite loop (never set by any command-protocol path). -/
@[ext]
structure UartState where
  uartTxMode : Nat
  bufferIndex : Nat
  rxBuffer : List Nat
  cal_flag_u : Bool
  storeSampleFlag : Bool
  resetSampleFlag : Bool
  sampleIndex : Nat
  halted : Bool
deriving DecidableEq

/-- Result of processing input bytes: the new state, the indices of every
store `rxBuffer[idx] = c` the code performed (to audit them against the
32-byte capacity), and the lines emitted. -/
structure ReceiveOut where
  state : UartState
  stores : List Nat
  emits : List Emit
deriving DecidableEq

def cmdCal : List Nat := [99, 97, 108]

def cmdStop : List Nat := [115, 116, 111, 112]

def cmdCsv : List Nat := [99, 115, 118]

def cmdBasic : List Nat := [98, 97, 115, 105, 99]

def cmdReset : List Nat := [114, 101, 115, 101, 116]

/-- `receive_uart_cmd` (interface.c lines 325-386) acting on one received
byte `b`.  A byte greater than `'0'` (48) is echoed and stored at
`rxBuffer[bufferIndex]`, which is then incremented — the source performs
no bound check against the 32-byte capacity, so the model records every
store index.  On `'\r'` (13) or `'\n'` (10) the terminator `'\0'` is
stored at `rxBuffer[bufferIndex]`, the accumulated line is matched
against the command table, and the buffer is cleared. -/
def receive_uart_cmd (s : UartState) (b : Nat) : ReceiveOut :=
  let s1 : UartState :=
    if 48 < b then
      { s with rxBuffer := s.rxBuffer ++ [b], bufferIndex := s.bufferIndex + 1 }
    else s
  let tr1 : List Nat := if 48 < b then [s.bufferIndex] else []
  if b = 13 ∨ b = 10 then
    let trNul : List Nat := [s1.bufferIndex]
    let s2e : UartState × List Emit :=
      if s1.rxBuffer = cmdCal then ({ s1 with cal_flag_u := true }, [])
      else if s1.rxBuffer = cmdStop then ({ s1 with uartTxMode := UART_NONE }, [])
      else if s1.rxBuffer = cmdCsv then ({ s1 with uartTxMode := UART_CSVINIT }, [])
      else if s1.rxBuffer = cmdBasic then ({ s1 with uartTxMode := UART_BASIC }, [])
      else if s1.rxBuffer = ([] : List Nat) then
        ({ s1 with storeSampleFlag := true, uartTxMode := UART_NONE }, [])
      else if s1.rxBuffer = cmdReset then
        ({ s1 with resetSampleFlag := true, uartTxMode := UART_NONE }, [])
      else (s1, [Emit.errorNotice])
    ⟨{ s2e.1 with bufferIndex := 0, rxBuffer := [] }, tr1 ++ trNul, s2e.2⟩
  else ⟨s1, tr1, []⟩

/-- Feed a whole byte sequence to `receive_uart_cmd`, one byte per call,
accumulating store indices and emissions. -/
def receiveRun (s : UartState) : List Nat → ReceiveOut
  | [] => ⟨s, [], []⟩
  | b :: bs =>
    let one := receive_uart_cmd s b
    let rest := receiveRun one.state bs
    ⟨rest.state, one.stores ++ rest.stores, one.emits ++ rest.emits⟩

/-- The mode-dependent head of `display_cur_liquid_level` (interface.c
lines 246-305): BASIC emits the one-line summary; CSV-INIT emits the
header row and switches the mode to CSV; CSV emits a data row; NONE
emits nothing. -/
def renderPhase (s : UartState) : UartState × List Emit :=
  if s.uartTxMode = UART_BASIC then (s, [Emit.basicLine])
  else if s.uartTxMode = UART_CSVINIT then
    ({ s with uartTxMode := UART_CSV }, [Emit.csvHeader])
  else if s.uartTxMode = UART_CSV then (s, [Emit.csvRow])
  else (s, [])

/-- `display_next_level_val` (interface.c lines 449-504): consume the
store-sample flag (header row when the cursor is at 0, then a data row,
then advance the cursor, saturating at `NUM_SAMPLES - 1`), then the
reset flag (cursor to 0, notice, both flags cleared). -/
def display_next_level_val (s : UartState) : UartState × List Emit :=
  let se1 : UartState × List Emit :=
    if s.storeSampleFlag then
      let hdr : List Emit := if s.sampleIndex = 0 then [Emit.sampleHeader] else []
      let idx1 := s.sampleIndex + 1
      let idx2 := if NUM_SAMPLES ≤ idx1 then NUM_SAMPLES - 1 else idx1
      ({ s with uartTxMode := UART_NONE, sampleIndex := idx2,
                storeSampleFlag := false },
       hdr ++ [Emit.sampleRow])
    else (s, [])
  if se1.1.resetSampleFlag then
    ({ se1.1 with sampleIndex := 0, resetSampleFlag := false,
                  storeSampleFlag := false },
     se1.2 ++ [Emit.resetNotice])
  else se1

/-- Result of one full render cycle: new state, remaining input bytes,
buffer-store indices, emissions. -/
structure CycleOut where
  state : UartState
  fifo : List Nat
  stores : List Nat
  emits : List Emit
deriving DecidableEq

/-- One call of `display_cur_liquid_level` (interface.c lines 242-311):
render according to the current mode, then let `receive_uart_cmd`
consume at most one pending byte, then run `display_next_level_val`.
This is the per-iteration UART work of the cycle loop in `main`. -/
def display_cur_liquid_level (s : UartState) (fifo : List Nat) : CycleOut :=
  let r := renderPhase s
  match fifo with
  | [] =>
    let d := display_next_level_val r.1
    ⟨d.1, [], [], r.2 ++ d.2⟩
  | b :: rest =>
    let rc := receive_uart_cmd r.1 b
    let d := display_next_level_val rc.state
    ⟨d.1, rest, rc.stores, r.2 ++ rc.emits ++ d.2⟩

/-- Iterate `display_cur_liquid_level` for `n` render cycles. -/
def runCycles (s : UartState) (fifo : List Nat) : Nat → CycleOut
  | 0 => ⟨s, fifo, [], []⟩
  | n + 1 =>
    let c := display_cur_liquid_level s fifo
    let r := runCycles c.state c.fifo n
    ⟨r.state, r.fifo, c.stores ++ r.stores, c.emits ++ r.emits⟩

/-- Start-up protocol state: `uartTxMode = UART_BASIC` (interface.c
line 50), empty buffer, no pending flags, sample cursor 0. -/
def uartInitState : UartState :=
  { uartTxMode := UART_BASIC
    bufferIndex := 0
    rxBuffer := []
    cal_flag_u := false
    storeSampleFlag := false
    resetSampleFlag := false
    sampleIndex := 0
    halted := false }

/-- The protocol state reached after the bytes of `csv` plus a carriage
return have been consumed and the header row has been rendered once:
CSV steady state. -/
def csvSteadyState : UartState :=
  { uartTxMode := UART_CSV
    bufferIndex := 0
    rxBuffer := []
    cal_flag_u := false
    storeSampleFlag := false
    resetSampleFlag := false
    sampleIndex := 0
    halted := false }

/-! ### Basic arithmetic lemmas and sanity checks -/

theorem wrap32_eq_self {x : Int} (h1 : -(2 ^ 31) ≤ x) (h2 : x < 2 ^ 31) :
    wrap32 x = x := by
  unfold wrap32
  omega

theorem sar_zero (n : Nat) : sar 0 n = 0 := by
  unfold sar
  simp [Int.fdiv]

theorem sar_eq_ediv (x : Int) (n : Nat) : sar x n = x / 2 ^ n := by
  unfold sar
  rw [Int.fdiv_eq_ediv _ (by positivity)]

example : sensorHeight = 3560 := by decide

example : sar sensorHeight 1 = 1780 := by decide

example : sar sensorHeight 2 = 890 := by decide

example : computeLevelMm 22 = 39168 := by decide

example : computeLevelMm 21 = 37380 := by decide

example : computeDiff 100 300 = 0 := by decide

example : computeActiveCount (fun _ => 1000) = 22 := by decide

example : fracPart 256 8 1 = 10 := by decide

example : specFracDigits 256 1 = 0 := by decide

example :
    (receiveRun uartInitState (List.replicate 33 97)).state.bufferIndex = 33 := by
  decide

example : 32 ∈ (receiveRun uartInitState (List.replicate 33 97)).stores := by
  decide

example :
    (runCycles uartInitState [99, 115, 118, 13] 5).emits
      = [Emit.basicLine, Emit.basicLine, Emit.basicLine, Emit.basicLine,
         Emit.csvHeader] := by
  decide

example : (runCycles uartInitState [99, 115, 118, 13] 5).state = csvSteadyState := by
  decide

example :
    (runCycles uartInitState [99, 115, 118, 13, 10] 6).state.uartTxMode
      = UART_NONE := by
  decide

/-! ### Projection lemmas for `cycleStep` -/

theorem cycleStep_base (s : MainState) (raw : Nat → Int) :
    (cycleStep s raw).sensorEmptyOffset = fun i =>
      if s.cal_flag ∧ i < NUMSENSORS then raw i else s.sensorEmptyOffset i := by
  funext i
  cases hc : s.cal_flag <;> by_cases hi : i < NUMSENSORS <;>
    simp [cycleStep, store_calibration, hc, hi]

theorem cycleStep_diff (s : MainState) (raw : Nat → Int) :
    (cycleStep s raw).sensorDiff = fun i =>
      if i < NUMSENSORS then
        computeDiff (raw i) ((cycleStep s raw).sensorEmptyOffset i)
      else s.sensorDiff i := by
  funext i
  cases hc : s.cal_flag <;> by_cases hi : i < NUMSENSORS <;>
    simp [cycleStep, store_calibration, hc, hi]

theorem cycleStep_processed (s : MainState) (raw : Nat → Int) :
    (cycleStep s raw).sensorProcessed = fun i =>
      if i < NUMSENSORS then
        computeProcessed ((cycleStep s raw).sensorDiff i) (sensorScale i)
      else s.sensorProcessed i := by
  funext i
  cases hc : s.cal_flag <;> by_cases hi : i < NUMSENSORS <;>
    simp [cycleStep, store_calibration, hc, hi]

theorem cycleStep_raw (s : MainState) (raw : Nat → Int) :
    (cycleStep s raw).sensorRaw = fun i =>
      if i < NUMSENSORS then raw i else s.sensorRaw i := by
  cases hc : s.cal_flag <;> simp [cycleStep, store_calibration, hc]

theorem cycleStep_cal_flag (s : MainState) (raw : Nat → Int) :
    (cycleStep s raw).cal_flag = false := by
  cases hc : s.cal_flag <;> simp [cycleStep, store_calibration, hc]

theorem cycleStep_activeCount (s : MainState) (raw : Nat → Int) :
    (cycleStep s raw).sensorActiveCount
      = computeActiveCount ((cycleStep s raw).sensorProcessed) := rfl

theorem cycleStep_levelMm (s : MainState) (raw : Nat → Int) :
    (cycleStep s raw).levelMm
      = computeLevelMm ((cycleStep s raw).sensorActiveCount) := rfl

theorem cycleStep_levelPercent (s : MainState) (raw : Nat → Int) :
    (cycleStep s raw).levelPercent
      = computeLevelPercent ((cycleStep s raw).levelMm) := rfl

/-! ### Active-count helpers -/

theorem countStep_eq (p : Nat → Int) (i : Nat) (acc : Nat) :
    countStep p i acc
      = acc + (if sensorLimits i / 2 < p i then slotWeight i else 0) := by
  unfold countStep slotWeight
  split_ifs <;> omega

theorem computeActiveCount_eq_sum (p : Nat → Int) :
    computeActiveCount p
      = ∑ i in Finset.range NUMSENSORS,
          (if sensorLimits i / 2 < p i then slotWeight i else 0) := by
  show computeActiveCount p
      = ∑ i in Finset.range 12, (if sensorLimits i / 2 < p i then slotWeight i else 0)
  simp only [computeActiveCount, countStep_eq]
  rw [Finset.sum_range_succ, Finset.sum_range_succ, Finset.sum_range_succ,
      Finset.sum_range_succ, Finset.sum_range_succ, Finset.sum_range_succ,
      Finset.sum_range_succ, Finset.sum_range_succ, Finset.sum_range_succ,
      Finset.sum_range_succ, Finset.sum_range_succ, Finset.sum_range_succ,
      Finset.sum_range_zero]

theorem computeActiveCount_le (p : Nat → Int) : computeActiveCount p ≤ 22 := by
  calc computeActiveCount p
      = ∑ i in Finset.range NUMSENSORS,
          (if sensorLimits i / 2 < p i then slotWeight i else 0) :=
        computeActiveCount_eq_sum p
    _ ≤ ∑ i in Finset.range NUMSENSORS, slotWeight i := by
        refine Finset.sum_le_sum fun i _ => ?_
        split_ifs <;> omega
    _ = 22 := by decide

/-! ### Claim C1 -/

/-- C1: refuted as stated — the claim asserts every store into the rx line
buffer uses an index below the 32-byte capacity with excess bytes dropped,
but `receive_uart_cmd` has no bound check: feeding 33 bytes greater than
`'0'` with no line terminator performs a store at index 32 (one past the
buffer) and drops nothing (`bufferIndex` reaches 33). -/
theorem C1_rx_buffer_overflow :
    32 ∈ (receiveRun uartInitState (List.replicate 33 97)).stores
    ∧ (receiveRun uartInitState (List.replicate 33 97)).state.bufferIndex = 33 := by
  decide

/-! ### Claim C2 -/

/-- C2: refuted as stated — for the 24.8 value 256 (exactly 1.0) with one
requested digit, the code's mask `0xFFFFFFFF >> (31 - 8)` keeps the low
NINE bits, producing fractional digit value 10, while the claimed low-8-bit
mask produces 0. -/
theorem C2_frac_mask_off_by_one :
    fracPart 256 8 1 = 10 ∧ specFracDigits 256 1 = 0
    ∧ fracPart 256 8 1 ≠ specFracDigits 256 1 := by
  decide

/-! ### Claim C4 -/

/-- C4: for every slot `i < NUMSENSORS`, with the raw count in the range
of the capacitive scanner's 16-bit counts and the stored baseline in the
range the firmware can produce (an `int16_t` loaded from EEPROM or a
previously saved 16-bit diff), the diff computed by the cycle equals
`max 0 (raw - baseline)` against the baseline in force for that cycle,
and is never negative. -/
theorem C4_diff_floor (s : MainState) (raw : Nat → Int) (i : Nat)
    (hi : i < NUMSENSORS)
    (hr0 : 0 ≤ raw i) (hr1 : raw i < 2 ^ 16)
    (hb0 : -(2 ^ 15) ≤ s.sensorEmptyOffset i)
    (hb1 : s.sensorEmptyOffset i < 2 ^ 16) :
    (cycleStep s raw).sensorDiff i
        = max 0 (raw i - (cycleStep s raw).sensorEmptyOffset i)
    ∧ 0 ≤ (cycleStep s raw).sensorDiff i := by
  have hbase : -(2 ^ 15) ≤ (cycleStep s raw).sensorEmptyOffset i
      ∧ (cycleStep s raw).sensorEmptyOffset i < 2 ^ 16 := by
    rw [cycleStep_base]
    by_cases hc : s.cal_flag ∧ i < NUMSENSORS <;> simp [hc] <;> omega
  rw [cycleStep_diff]
  simp only [hi, if_true, computeDiff]
  rw [wrap32_eq_self (by omega) (by omega), max_def]
  constructor
  · split_ifs <;> omega
  · split_ifs <;> omega

/-- Witness for C4 at a concrete state and input. -/
theorem C4_diff_floor_witness :
    (cycleStep mainInitState (fun _ => 100)).sensorDiff 0
        = max 0 ((100 : Int) - (cycleStep mainInitState (fun _ => 100)).sensorEmptyOffset 0)
    ∧ 0 ≤ (cycleStep mainInitState (fun _ => 100)).sensorDiff 0 :=
  C4_diff_floor mainInitState (fun _ => 100) 0 (by norm_num [NUMSENSORS])
    (by norm_num) (by norm_num) (by norm_num [mainInitState]) (by norm_num [mainInitState])

/-! ### Claim C6 -/

/-- C6: in every cycle the active count equals the weighted sum, over all
slots, of the submersion test `processed[i] > threshold[i]/2` — weight 1
for the two end slots and 2 for interior slots — and is therefore bounded
by `2 * (NUMSENSORS - 2) + 2 = 22`. -/
theorem C6_activeCount_weighted_sum (s : MainState) (raw : Nat → Int) :
    (cycleStep s raw).sensorActiveCount
        = ∑ i in Finset.range NUMSENSORS,
            (if sensorLimits i / 2 < (cycleStep s raw).sensorProcessed i
             then slotWeight i else 0)
    ∧ (cycleStep s raw).sensorActiveCount ≤ 2 * (NUMSENSORS - 2) + 2 := by
  constructor
  · rw [cycleStep_activeCount, computeActiveCount_eq_sum]
  · rw [cycleStep_activeCount]
    have h := computeActiveCount_le ((cycleStep s raw).sensorProcessed)
    simp only [NUMSENSORS]
    omega

/-! ### Claim C5 -/

/-- C5: whenever the pipeline's pre-correction height
`activeCount * (sensorHeight >> 1)` lies within `sensorHeight >> 2` of
`LEVELMM_MAX << 8`, the cycle's final `levelMm` is exactly
`LEVELMM_MAX << 8`; otherwise it is left at the pre-correction value.
(The pipeline's active count is at most 22, under which the code's strict
comparison against `LEVELMM_MAX*256 - (sensorHeight >> 2)` coincides with
the claimed distance test.) -/
theorem C5_snap_to_max (s : MainState) (raw : Nat → Int) :
    (|(LEVELMM_MAX : Int) * 2 ^ 8
        - ((cycleStep s raw).sensorActiveCount : Int) * sar sensorHeight 1|
       ≤ sar sensorHeight 2
     → (cycleStep s raw).levelMm = (LEVELMM_MAX : Int) * 2 ^ 8)
    ∧ (¬ |(LEVELMM_MAX : Int) * 2 ^ 8
            - ((cycleStep s raw).sensorActiveCount : Int) * sar sensorHeight 1|
          ≤ sar sensorHeight 2
       → (cycleStep s raw).levelMm
           = ((cycleStep s raw).sensorActiveCount : Int) * sar sensorHeight 1) := by
  have hle : (cycleStep s raw).sensorActiveCount ≤ 22 := by
    rw [cycleStep_activeCount]
    exact computeActiveCount_le _
  rw [cycleStep_levelMm]
  generalize (cycleStep s raw).sensorActiveCount = n at hle ⊢
  interval_cases n <;> exact (by decide)

/-- Witness for C5: a fully submerged container (active count 22) snaps to
exactly `153 << 8`. -/
theorem C5_snap_to_max_witness :
    (cycleStep mainInitState (fun _ => 100000)).levelMm
      = (LEVELMM_MAX : Int) * 2 ^ 8 :=
  (C5_snap_to_max mainInitState (fun _ => 100000)).1 (by decide)

/-! ### Claims C7 and C10: calibration within a cycle -/

theorem computeDiff_self (x : Int) : computeDiff x x = 0 := by
  unfold computeDiff
  rw [sub_self]
  norm_num [wrap32]

theorem computeProcessed_zero (c : Int) : computeProcessed 0 c = 0 := by
  unfold computeProcessed
  rw [zero_mul]
  norm_num [wrap32, sar_zero]

theorem computeActiveCount_of_zeros (p : Nat → Int)
    (hp : ∀ i, i < NUMSENSORS → p i = 0) : computeActiveCount p = 0 := by
  have h0 := hp 0 (by norm_num [NUMSENSORS])
  have h1 := hp 1 (by norm_num [NUMSENSORS])
  have h2 := hp 2 (by norm_num [NUMSENSORS])
  have h3 := hp 3 (by norm_num [NUMSENSORS])
  have h4 := hp 4 (by norm_num [NUMSENSORS])
  have h5 := hp 5 (by norm_num [NUMSENSORS])
  have h6 := hp 6 (by norm_num [NUMSENSORS])
  have h7 := hp 7 (by norm_num [NUMSENSORS])
  have h8 := hp 8 (by norm_num [NUMSENSORS])
  have h9 := hp 9 (by norm_num [NUMSENSORS])
  have h10 := hp 10 (by norm_num [NUMSENSORS])
  have h11 := hp 11 (by norm_num [NUMSENSORS])
  simp only [computeActiveCount, countStep, h0, h1, h2, h3, h4, h5, h6, h7,
    h8, h9, h10, h11]
  norm_num [sensorLimits]

/-- C7: within a cycle whose calibration flag is set, the save happens
strictly before the diff/processed recomputation — the cycle is
indistinguishable from one that starts with the baselines already equal to
this cycle's raw counts; in particular the just-saved baseline values are
this cycle's raw counts. -/
theorem C7_cal_save_before_recompute (s : MainState) (raw : Nat → Int)
    (h : s.cal_flag = true) :
    cycleStep s raw
        = cycleStep
            { s with
              sensorEmptyOffset :=
                fun i => if i < NUMSENSORS then raw i else s.sensorEmptyOffset i
              cal_flag := false } raw
    ∧ ∀ i, i < NUMSENSORS → (cycleStep s raw).sensorEmptyOffset i = raw i := by
  constructor
  · set s' : MainState :=
      { s with
        sensorEmptyOffset :=
          fun i => if i < NUMSENSORS then raw i else s.sensorEmptyOffset i
        cal_flag := false } with hs'
    have hbase :
        (cycleStep s raw).sensorEmptyOffset = (cycleStep s' raw).sensorEmptyOffset := by
      rw [cycleStep_base, cycleStep_base]
      funext i
      by_cases hi : i < NUMSENSORS <;> simp [h, hi, hs']
    have hdiffe : (cycleStep s raw).sensorDiff = (cycleStep s' raw).sensorDiff := by
      rw [cycleStep_diff, cycleStep_diff, hbase]
    have hproce :
        (cycleStep s raw).sensorProcessed = (cycleStep s' raw).sensorProcessed := by
      rw [cycleStep_processed, cycleStep_processed, hdiffe]
    have hrawe : (cycleStep s raw).sensorRaw = (cycleStep s' raw).sensorRaw := by
      rw [cycleStep_raw, cycleStep_raw]
    have hace :
        (cycleStep s raw).sensorActiveCount = (cycleStep s' raw).sensorActiveCount := by
      rw [cycleStep_activeCount, cycleStep_activeCount, hproce]
    have hlve : (cycleStep s raw).levelMm = (cycleStep s' raw).levelMm := by
      rw [cycleStep_levelMm, cycleStep_levelMm, hace]
    have hlpe : (cycleStep s raw).levelPercent = (cycleStep s' raw).levelPercent := by
      rw [cycleStep_levelPercent, cycleStep_levelPercent, hlve]
    have hcfe : (cycleStep s raw).cal_flag = (cycleStep s' raw).cal_flag := by
      rw [cycleStep_cal_flag, cycleStep_cal_flag]
    exact MainState.ext hrawe hdiffe hbase hproce hace hlve hlpe hcfe
  · intro i hi
    rw [cycleStep_base]
    simp [h, hi]

/-- Witness for C7 at a concrete calibration-requested state. -/
theorem C7_cal_save_before_recompute_witness :
    (cycleStep { mainInitState with cal_flag := true } (fun _ => 777)).sensorEmptyOffset 3
      = 777 :=
  (C7_cal_save_before_recompute { mainInitState with cal_flag := true }
      (fun _ => 777) rfl).2 3 (by norm_num [NUMSENSORS])

/-- C10: a cycle that executes a calibration save reads as an empty
container in that same cycle: every diff is 0, every processed value is 0,
the active count is 0, and both the level height and level percent are 0. -/
theorem C10_cal_cycle_reads_empty (s : MainState) (raw : Nat → Int)
    (h : s.cal_flag = true) :
    (∀ i, i < NUMSENSORS → (cycleStep s raw).sensorDiff i = 0)
    ∧ (∀ i, i < NUMSENSORS → (cycleStep s raw).sensorProcessed i = 0)
    ∧ (cycleStep s raw).sensorActiveCount = 0
    ∧ (cycleStep s raw).levelMm = 0
    ∧ (cycleStep s raw).levelPercent = 0 := by
  have hdiff : ∀ i, i < NUMSENSORS → (cycleStep s raw).sensorDiff i = 0 := by
    intro i hi
    rw [cycleStep_diff]
    simp only [hi, if_true]
    rw [cycleStep_base]
    simp only [h, true_and, hi, if_true]
    exact computeDiff_self (raw i)
  have hproc : ∀ i, i < NUMSENSORS → (cycleStep s raw).sensorProcessed i = 0 := by
    intro i hi
    rw [cycleStep_processed]
    simp only [hi, if_true, hdiff i hi]
    exact computeProcessed_zero _
  have hac : (cycleStep s raw).sensorActiveCount = 0 := by
    rw [cycleStep_activeCount]
    exact computeActiveCount_of_zeros _ hproc
  have hlvl : (cycleStep s raw).levelMm = 0 := by
    rw [cycleStep_levelMm, hac]
    decide
  refine ⟨hdiff, hproc, hac, hlvl, ?_⟩
  rw [cycleStep_levelPercent, hlvl]
  decide

/-- Witness for C10 at a concrete calibration-requested state. -/
theorem C10_cal_cycle_reads_empty_witness :
    (cycleStep { mainInitState with cal_flag := true } (fun _ => 777)).levelMm = 0
    ∧ (cycleStep { mainInitState with cal_flag := true } (fun _ => 777)).levelPercent
        = 0 :=
  ⟨(C10_cal_cycle_reads_empty { mainInitState with cal_flag := true }
      (fun _ => 777) rfl).2.2.2.1,
   (C10_cal_cycle_reads_empty { mainInitState with cal_flag := true }
      (fun _ => 777) rfl).2.2.2.2⟩

/-! ### Run-composition lemmas for the protocol machine -/

theorem runCycles_add (s : UartState) (f : List Nat) (m n : Nat) :
    runCycles s f (m + n)
      = ⟨(runCycles (runCycles s f m).state (runCycles s f m).fifo n).state,
         (runCycles (runCycles s f m).state (runCycles s f m).fifo n).fifo,
         (runCycles s f m).stores
           ++ (runCycles (runCycles s f m).state (runCycles s f m).fifo n).stores,
         (runCycles s f m).emits
           ++ (runCycles (runCycles s f m).state (runCycles s f m).fifo n).emits⟩ := by
  induction m generalizing s f with
  | zero => simp [runCycles]
  | succ m ih =>
      have hmn : m + 1 + n = (m + n) + 1 := by omega
      rw [hmn]
      simp only [runCycles]
      rw [ih]
      simp [List.append_assoc]

/-- In CSV steady state with no pending input, one cycle emits exactly one
CSV data row and leaves the protocol state unchanged. -/
theorem csvSteady_fixed :
    display_cur_liquid_level csvSteadyState []
      = ⟨csvSteadyState, [], [], [Emit.csvRow]⟩ := by
  decide

theorem runCycles_csvSteady (n : Nat) :
    runCycles csvSteadyState [] n
      = ⟨csvSteadyState, [], [], List.replicate n Emit.csvRow⟩ := by
  induction n with
  | zero => simp [runCycles]
  | succ n ih =>
      simp only [runCycles, csvSteady_fixed]
      rw [ih]
      simp [List.replicate_succ]

theorem count_csvHeader_replicate (n : Nat) :
    (List.replicate n Emit.csvRow).count Emit.csvHeader = 0 := by
  induction n with
  | zero => simp
  | succ n ih => simp [List.replicate_succ, List.count_cons, ih]

/-! ### Claim C3 -/

/-- C3: refuted as stated — after feeding the five bytes of `"csv\r\n"`
(one byte per render cycle; the header fires on the fifth cycle), the
trailing newline has been parsed as an *empty-line* command, which sets
the store-sample flag and forces the mode to `UART_NONE`.  Subsequent
render cycles therefore emit nothing at all: no CSV data row ever appears
in a 20-cycle run. -/
theorem C3_crlf_counterexample :
    (runCycles uartInitState [99, 115, 118, 13, 10] 6).state.uartTxMode = UART_NONE
    ∧ (display_cur_liquid_level
        (runCycles uartInitState [99, 115, 118, 13, 10] 6).state []).emits = []
    ∧ Emit.csvRow ∉ (runCycles uartInitState [99, 115, 118, 13, 10] 20).emits := by
  decide

/-- C3 amended: feeding `"csv\r"` (a bare carriage-return terminator), the
first render cycle after the command is parsed emits exactly one CSV
header row, and every later render cycle emits exactly one CSV data row —
the header appears exactly once in the whole run, however long. -/
theorem C3_csv_header_once (n : Nat) :
    (runCycles uartInitState [99, 115, 118, 13] (5 + n)).emits
      = [Emit.basicLine, Emit.basicLine, Emit.basicLine, Emit.basicLine,
         Emit.csvHeader] ++ List.replicate n Emit.csvRow
    ∧ ((runCycles uartInitState [99, 115, 118, 13] (5 + n)).emits).count
        Emit.csvHeader = 1 := by
  have h5 : runCycles uartInitState [99, 115, 118, 13] 5
      = ⟨csvSteadyState, [], [0, 1, 2, 3],
         [Emit.basicLine, Emit.basicLine, Emit.basicLine, Emit.basicLine,
          Emit.csvHeader]⟩ := by decide
  have hsplit := runCycles_add uartInitState [99, 115, 118, 13] 5 n
  rw [h5] at hsplit
  simp only [runCycles_csvSteady] at hsplit
  rw [hsplit]
  refine ⟨rfl, ?_⟩
  simp [List.count_append, count_csvHeader_replicate]

/-! ### Claim C8 -/

theorem renderPhase_sampleIndex (s : UartState) :
    (renderPhase s).1.sampleIndex = s.sampleIndex := by
  unfold renderPhase
  split_ifs <;> rfl

theorem receive_sampleIndex (s : UartState) (b : Nat) :
    (receive_uart_cmd s b).state.sampleIndex = s.sampleIndex := by
  simp only [receive_uart_cmd]
  split_ifs <;> rfl

theorem displayNext_sampleIndex_le (s : UartState)
    (h : s.sampleIndex ≤ NUM_SAMPLES - 1) :
    (display_next_level_val s).1.sampleIndex ≤ NUM_SAMPLES - 1 := by
  unfold display_next_level_val
  simp only [NUM_SAMPLES] at h ⊢
  split_ifs <;> simp <;> omega

set_option maxRecDepth 40000 in
/-- C8: the sample-sequence cursor never leaves `[0, NUM_SAMPLES - 1]`
(each render cycle preserves the bound, saturating instead of wrapping);
concretely, 20 consecutive empty-line commands from start-up leave the
cursor at 19, and a following `reset` command returns it to 0 with both
one-shot flags cleared. -/
theorem C8_sample_cursor :
    (∀ s fifo, s.sampleIndex ≤ NUM_SAMPLES - 1 →
        (display_cur_liquid_level s fifo).state.sampleIndex ≤ NUM_SAMPLES - 1)
    ∧ (runCycles uartInitState (List.replicate 20 13) 20).state.sampleIndex = 19
    ∧ (runCycles uartInitState (List.replicate 20 13 ++ cmdReset ++ [13]) 26).state.sampleIndex
        = 0
    ∧ (runCycles uartInitState
        (List.replicate 20 13 ++ cmdReset ++ [13]) 26).state.storeSampleFlag = false
    ∧ (runCycles uartInitState
        (List.replicate 20 13 ++ cmdReset ++ [13]) 26).state.resetSampleFlag
        = false := by
  refine ⟨?_, by decide, by decide, by decide, by decide⟩
  intro s fifo h
  cases fifo with
  | nil =>
      simp only [display_cur_liquid_level]
      apply displayNext_sampleIndex_le
      rw [renderPhase_sampleIndex]
      exact h
  | cons b rest =>
      simp only [display_cur_liquid_level]
      apply displayNext_sampleIndex_le
      rw [receive_sampleIndex, renderPhase_sampleIndex]
      exact h

/-- Witness for C8's preservation part at a concrete state. -/
theorem C8_sample_cursor_witness :
    (display_cur_liquid_level uartInitState []).state.sampleIndex
      ≤ NUM_SAMPLES - 1 :=
  C8_sample_cursor.1 uartInitState [] (by decide)

/-! ### Claim C9 -/

theorem receiveRun_append (s : UartState) (xs ys : List Nat) :
    receiveRun s (xs ++ ys)
      = ⟨(receiveRun (receiveRun s xs).state ys).state,
         (receiveRun s xs).stores ++ (receiveRun (receiveRun s xs).state ys).stores,
         (receiveRun s xs).emits ++ (receiveRun (receiveRun s xs).state ys).emits⟩ := by
  induction xs generalizing s with
  | nil => simp [receiveRun]
  | cons b bs ih =>
      simp only [List.cons_append, receiveRun, List.append_eq]
      rw [ih]
      simp [List.append_assoc]

/-- Feeding only plain bytes (greater than `'0'`, hence not terminators)
appends them to the line buffer, emits nothing, and stores only below the
final buffer index. -/
theorem receiveRun_plain (bs : List Nat) (s : UartState)
    (h : ∀ b ∈ bs, 48 < b) :
    (receiveRun s bs).state
        = { s with rxBuffer := s.rxBuffer ++ bs,
                   bufferIndex := s.bufferIndex + bs.length }
    ∧ (receiveRun s bs).emits = []
    ∧ ∀ ix ∈ (receiveRun s bs).stores, ix < s.bufferIndex + bs.length := by
  induction bs generalizing s with
  | nil =>
      refine ⟨by simp [receiveRun], rfl, by simp [receiveRun]⟩
  | cons b bs ih =>
      have hb : 48 < b := h b (List.mem_cons_self b bs)
      have hb13 : ¬(b = 13 ∨ b = 10) := by omega
      have hone : receive_uart_cmd s b
          = ⟨{ s with
                rxBuffer := s.rxBuffer ++ [b]
                bufferIndex := s.bufferIndex + 1 },
             [s.bufferIndex], []⟩ := by
        unfold receive_uart_cmd
        simp [hb, hb13]
      have ihs := ih
        { s with
          rxBuffer := s.rxBuffer ++ [b]
          bufferIndex := s.bufferIndex + 1 }
        (fun x hx => h x (List.mem_cons_of_mem b hx))
      simp only [receiveRun, hone]
      refine ⟨?_, ?_, ?_⟩
      · rw [ihs.1]
        congr 1
        · dsimp only
          simp only [List.length_cons]
          omega
        · simp
      · simpa using ihs.2.1
      · intro ix hix
        simp only [List.length_cons]
        rcases List.mem_append.1 hix with hix | hix
        · simp at hix
          omega
        · have h' := ihs.2.2 ix hix
          simp at h'
          omega

/-- C9: a completed line that matches none of the six commands produces
exactly an error notice and leaves the protocol state — display mode,
calibration flag, both one-shot flags, sample cursor, halt marker, and
the (cleared) line buffer — identical to the state before the line was
typed; every buffer store stays below the 32-byte capacity.  (The line is
assumed shorter than the buffer; longer lines are the separate overflow
defect of C1.) -/
theorem C9_unknown_command (s : UartState) (line : List Nat)
    (hbuf : s.rxBuffer = []) (hidx : s.bufferIndex = 0)
    (hchars : ∀ b ∈ line, 48 < b) (hlen : line.length ≤ 31)
    (h1 : line ≠ cmdCal) (h2 : line ≠ cmdStop) (h3 : line ≠ cmdCsv)
    (h4 : line ≠ cmdBasic) (h5 : line ≠ []) (h6 : line ≠ cmdReset) :
    (receiveRun s (line ++ [13])).state = s
    ∧ (receiveRun s (line ++ [13])).emits = [Emit.errorNotice]
    ∧ ∀ ix ∈ (receiveRun s (line ++ [13])).stores, ix < 32 := by
  obtain ⟨hst, hem, hstores⟩ := receiveRun_plain line s hchars
  have hbuffer : (receiveRun s line).state.rxBuffer = line := by
    rw [hst]
    simp [hbuf]
  have hindex : (receiveRun s line).state.bufferIndex = line.length := by
    rw [hst]
    simp [hidx]
  have hterm : receive_uart_cmd (receiveRun s line).state 13
      = ⟨{ (receiveRun s line).state with bufferIndex := 0, rxBuffer := [] },
         [line.length], [Emit.errorNotice]⟩ := by
    unfold receive_uart_cmd
    simp [hbuffer, hindex, h1, h2, h3, h4, h5, h6]
  have hclear :
      ({ (receiveRun s line).state with bufferIndex := 0, rxBuffer := [] }
        : UartState) = s := by
    rw [hst]
    ext <;> simp [hbuf, hidx]
  rw [receiveRun_append]
  refine ⟨?_, ?_, ?_⟩
  · simp [receiveRun, hterm, hclear]
  · simp [receiveRun, hterm, hem]
  · intro ix hix
    simp only [receiveRun, hterm, List.append_nil] at hix
    rcases List.mem_append.1 hix with hix | hix
    · have h' := hstores ix hix
      omega
    · simp at hix
      omega

/-- Witness for C9: the unknown line `"xyz"` terminated by carriage return
emits one error notice and restores the start-up state exactly. -/
theorem C9_unknown_command_witness :
    (receiveRun uartInitState ([120, 121, 122] ++ [13])).state = uartInitState
    ∧ (receiveRun uartInitState ([120, 121, 122] ++ [13])).emits
        = [Emit.errorNotice] :=
  ⟨(C9_unknown_command uartInitState [120, 121, 122] rfl rfl (by decide)
      (by decide) (by decide) (by decide) (by decide) (by decide) (by decide)
      (by decide)).1,
   (C9_unknown_command uartInitState [120, 121, 122] rfl rfl (by decide)
      (by decide) (by decide) (by decide) (by decide) (by decide) (by decide)
      (by decide)).2.1⟩
